import Mathlib

/-!
Verification development for the `meos-rs` span algebra and temporal trait
layer (crate `meos`, a Rust wrapper over the MEOS C library).

The Rust sources under verification are thin wrappers: the semantic core
(span construction, canonicalization, restriction, predicates) lives in the
external `meos_sys` C functions. Those functions are modelled here from the
crate's specification and, where the crate's own doc-tests (executable tests
that live in the Rust source files) pin down behaviour, from these tests.
Each modelled definition carries a comment naming its origin. The Rust-side
wrapper functions (`DateSpan::lower`, `DateSpan::from_str`,
`Temporal::time_split_n`, ...) are translated line by line from the source.

Conventions:
* `chrono::NaiveDate` is represented by its `num_days_from_ce` integer.
* MEOS `DateADT` values count days from 2000-01-01, hence the fixed offset
  `DAYS_UNTIL_2000` between the two encodings.
* A Rust computation that may panic is modelled by `Outcome`; a Rust
  `Result` by `Except`.
-/

namespace MeosRs

/-- Result of running a Rust computation that may panic (`unwrap`, `expect`,
division by zero, ...): either a normal value or a panic. -/
inductive Outcome (α : Type) where
  | ok : α → Outcome α
  | panic : Outcome α
deriving DecidableEq, Repr

/-- The crate's `errors::ParseError` type (a unit struct). -/
inductive ParseError where
  | parseError
deriving DecidableEq, Repr

instance {ε α : Type} [DecidableEq ε] [DecidableEq α] : DecidableEq (Except ε α) := fun x y =>
  match x, y with
  | .ok a, .ok b =>
    if h : a = b then .isTrue (by rw [h]) else .isFalse (fun hc => by cases hc; exact h rfl)
  | .error a, .error b =>
    if h : a = b then .isTrue (by rw [h]) else .isFalse (fun hc => by cases hc; exact h rfl)
  | .ok _, .error _ => .isFalse (fun hc => by cases hc)
  | .error _, .ok _ => .isFalse (fun hc => by cases hc)

/-! ## Proleptic Gregorian calendar arithmetic (model of `chrono` dates)

`chrono::NaiveDate` is an ordered type isomorphic to its day number
`num_days_from_ce` (0001-01-01 is day 1); we use that integer directly.
`daysFromCE` converts a calendar date given as year/month/day to this
encoding (days-from-civil algorithm, truncating integer division). -/

/-- Days since 1970-01-01 of the proleptic Gregorian date y-m-d. -/
def daysFromCivil (y m d : Int) : Int :=
  let y1 := if m ≤ 2 then y - 1 else y
  let era := (if 0 ≤ y1 then y1 else y1 - 399) / 400
  let yoe := y1 - era * 400
  let mp := (m + 9) % 12
  let doy := (153 * mp + 2) / 5 + d - 1
  let doe := yoe * 365 + yoe / 4 - yoe / 100 + doy
  era * 146097 + doe - 719468

/-- `chrono`'s `num_days_from_ce` of the date y-m-d (0001-01-01 = 1). -/
def daysFromCE (y m d : Int) : Int :=
  daysFromCivil y m d + 719163

/-- Modelled from the spec: the constant `DAYS_UNTIL_2000` of
`collections::datetime` (its defining module is not under `src/`): the
offset between `chrono`'s days-from-CE encoding and the MEOS date epoch
2000-01-01, used by every date conversion in `date_span.rs`. -/
def DAYS_UNTIL_2000 : Int := 730120

theorem daysFromCE_epoch : daysFromCE 2000 1 1 = DAYS_UNTIL_2000 := by decide

theorem daysFromCE_day_one : daysFromCE 1 1 1 = 1 := by decide

/-! ## The MEOS span value

`meos_sys::Span` specialised to the date domain: two integer bounds plus
two inclusivity flags. Date spans are canonicalized to half-open form
`[lower, upper)` on construction (spec §3, confirmed by the crate's
doc-tests). -/

/-- Model of the C-side `meos_sys::Span` payload for date spans. -/
structure MSpan where
  lower : Int
  upper : Int
  lower_inc : Bool
  upper_inc : Bool
deriving DecidableEq, Repr

/-- Modelled from the spec: `meos_sys::datespan_make`. Validity requires
`lower < upper`, or `lower = upper` with both bounds inclusive (spec §3:
`lower <= upper`, a single point needs both bounds inclusive, empty spans
are not representable); a violation is a MEOS error, i.e. a null result
(`none`). Discrete canonicalization then advances an exclusive lower and
an inclusive upper bound by one day, storing `[lower, upper)`. -/
def datespan_make (lo hi : Int) (loinc hiinc : Bool) : Option MSpan :=
  if lo < hi ∨ (lo = hi ∧ loinc = true ∧ hiinc = true) then
    some ⟨if loinc then lo else lo + 1, if hiinc then hi + 1 else hi, true, false⟩
  else
    none

/-- Modelled from the spec: `meos_sys::datespan_lower` returns the stored
(canonical) lower bound. -/
def datespan_lower (s : MSpan) : Int := s.lower

/-- Modelled from the spec: `meos_sys::datespan_upper` returns the stored
canonical upper bound. The spec's accessor sentence says half-open
canonicalization is undone on output, but the crate's own doc-tests
(`date_span.rs` lines 95-97 and 315-317) show `upper()` returning the
stored exclusive bound unchanged; the doc-tests, being code of the
repository, are followed. -/
def datespan_upper (s : MSpan) : Int := s.upper

/-- Modelled from the spec: `meos_sys::contains_span_date`, the flag-aware
membership test of a value in a span (spec §4.1 `contains(value)`). -/
def contains_span_date (s : MSpan) (v : Int) : Bool :=
  (if s.lower_inc then decide (s.lower ≤ v) else decide (s.lower < v)) &&
  (if s.upper_inc then decide (v ≤ s.upper) else decide (v < s.upper))

/-- Modelled from the spec: `meos_sys::datespan_shift_scale`. A shift adds
`d` to both bounds; a scale sets the canonical upper bound to
`lower + w + 1`, keeping the lower bound (spec §4.1 plus the crate's
doc-tests at `date_span.rs` lines 150-153 and 177-180, which fix the extra
`+ 1` of the discrete domain). A non-positive width is a MEOS error
(null result, `none`). -/
def datespan_shift_scale_c (s : MSpan) (d w : Int) (hasd hasw : Bool) : Option MSpan :=
  if hasw && decide (w ≤ 0) then
    none
  else
    let l := if hasd then s.lower + d else s.lower
    let u := if hasw then l + w + 1 else (if hasd then s.upper + d else s.upper)
    some ⟨l, u, s.lower_inc, s.upper_inc⟩

/-- Modelled from the spec: the bound comparison underlying
`meos_sys::intersection_span_span`: the lower bound of `a` does not exceed
the upper bound of `b` (a touch at equal values counts only when both
bounds are inclusive). -/
def lower_bound_le_upper_bound (a b : MSpan) : Bool :=
  decide (a.lower < b.upper) ||
    (decide (a.lower = b.upper) && a.lower_inc && b.upper_inc)

/-- Modelled from the spec: `meos_sys::overlaps_span_span` — the bound
intervals intersect (spec §4.1). -/
def overlaps_span_span (a b : MSpan) : Bool :=
  lower_bound_le_upper_bound a b && lower_bound_le_upper_bound b a

/-- Modelled from the spec: `meos_sys::intersection_span_span` — null
(`none`) when the spans do not overlap, otherwise the span of the greater
lower bound and the smaller upper bound (spec §4.1 `intersection`). -/
def intersection_span_span (a b : MSpan) : Option MSpan :=
  if overlaps_span_span a b then
    let l := max a.lower b.lower
    let linc :=
      if a.lower = b.lower then a.lower_inc && b.lower_inc
      else if b.lower < a.lower then a.lower_inc else b.lower_inc
    let u := min a.upper b.upper
    let uinc :=
      if a.upper = b.upper then a.upper_inc && b.upper_inc
      else if a.upper < b.upper then a.upper_inc else b.upper_inc
    some ⟨l, u, linc, uinc⟩
  else
    none

/-! ## Parsing (model of `meos_sys::datespan_in`)

Textual grammar from spec §6: `('['|'(') <lower>, <upper> (']'|')')`,
brackets independently select inclusivity, whitespace around the comma is
ignored; malformed text is a MEOS parse error (null result). Dates are
written `YYYY-MM-DD`. -/

/-- ASCII whitespace predicate used when trimming literal components. -/
def isSpaceChar (c : Char) : Bool :=
  decide (c = ' ') || decide (c = '\t') || decide (c = '\n') || decide (c = '\r')

/-- Remove leading and trailing whitespace from a character list. -/
def trimChars (l : List Char) : List Char :=
  ((l.dropWhile isSpaceChar).reverse.dropWhile isSpaceChar).reverse

/-- Split a character list at every occurrence of the separator `c`. -/
def splitOnChar (c : Char) : List Char → List (List Char)
  | [] => [[]]
  | x :: xs =>
    if x = c then [] :: splitOnChar c xs
    else
      match splitOnChar c xs with
      | [] => [[x]]
      | h :: t => (x :: h) :: t

/-- Read a non-empty all-digit character list as a natural number. -/
def digitsToNat : List Char → Option Nat
  | [] => none
  | cs => cs.foldl
      (fun acc c =>
        acc.bind fun n => if c.isDigit then some (n * 10 + (c.toNat - 48)) else none)
      (some 0)

/-- Parse a `YYYY-MM-DD` date literal into a MEOS `DateADT` (days since
2000-01-01); `none` on malformed text. -/
def parseDateLiteral (l : List Char) : Option Int :=
  match splitOnChar '-' (trimChars l) with
  | [ys, ms, ds] =>
    match digitsToNat ys, digitsToNat ms, digitsToNat ds with
    | some y, some m, some d =>
      if 1 ≤ m ∧ m ≤ 12 ∧ 1 ≤ d ∧ d ≤ 31 then
        some (daysFromCE (y : Int) (m : Int) (d : Int) - DAYS_UNTIL_2000)
      else none
    | _, _, _ => none
  | _ => none

/-- Modelled from the spec: `meos_sys::datespan_in` — parse a span literal
per the grammar of spec §6 (`('['|'(') lower ',' upper (']'|')')`, with
whitespace around the comma ignored) and construct the span through the
same validation and canonicalization as `datespan_make`; malformed text
yields a null result (`none`). -/
def datespan_in (s : String) : Option MSpan :=
  match trimChars s.data with
  | [] => none
  | c :: rest =>
    match rest.reverse with
    | [] => none
    | lastc :: midrev =>
      let loincOpt : Option Bool :=
        match c with
        | '[' => some true
        | '(' => some false
        | _ => none
      let hiincOpt : Option Bool :=
        match lastc with
        | ']' => some true
        | ')' => some false
        | _ => none
      match loincOpt, hiincOpt with
      | some loinc, some hiinc =>
        match splitOnChar ',' midrev.reverse with
        | [los, his] =>
          match parseDateLiteral los, parseDateLiteral his with
          | some lo, some hi => datespan_make lo hi loinc hiinc
          | _, _ => none
        | _ => none
      | _, _ => none

/-! ## The Rust wrapper `DateSpan` (`src/collections/datetime/date_span.rs`)

A Rust `DateSpan` owns a pointer to a C `meos_sys::Span`; we identify it
with the pointed-to `MSpan` value. The wrapper functions below are
translated directly from the Rust source; panics (`expect`, `unwrap`,
failed `try_into`) become `Outcome.panic`. -/

namespace DateSpan

/-- `DateSpan::from_inner` (`date_span.rs` lines 51-55):
`NonNull::new(inner).expect("No null pointers allowed")` — a null pointer
from MEOS panics. -/
def from_inner (r : Option MSpan) : Outcome MSpan :=
  match r with
  | some s => .ok s
  | none => .panic

/-- `impl From<Range<NaiveDate>> for DateSpan` (lines 355-372):
`datespan_make(start - DAYS_UNTIL_2000, end - DAYS_UNTIL_2000, true, false)`. -/
def from_range (start stop : Int) : Outcome MSpan :=
  from_inner (datespan_make (start - DAYS_UNTIL_2000) (stop - DAYS_UNTIL_2000) true false)

/-- `impl From<RangeInclusive<NaiveDate>> for DateSpan` (lines 374-394):
same conversion with both inclusivity flags true. -/
def from_range_inclusive (start stop : Int) : Outcome MSpan :=
  from_inner (datespan_make (start - DAYS_UNTIL_2000) (stop - DAYS_UNTIL_2000) true true)

/-- `DateSpan::lower` (lines 74-80): the raw `datespan_lower` day count,
shifted back by `DAYS_UNTIL_2000` into the `chrono` encoding. -/
def lower (s : MSpan) : Int :=
  datespan_lower s + DAYS_UNTIL_2000

/-- `DateSpan::upper` (lines 99-105): the raw `datespan_upper` day count,
shifted back by `DAYS_UNTIL_2000` into the `chrono` encoding. -/
def upper (s : MSpan) : Int :=
  datespan_upper s + DAYS_UNTIL_2000

/-- `DateSpan::contains` (lines 33-35): passes `content.num_days_from_ce()`
to `contains_span_date` directly, without the `DAYS_UNTIL_2000` shift used
by every constructor in the same file. -/
def contains (s : MSpan) (d : Int) : Bool :=
  contains_span_date s d

/-- The set of external dates a stored span admits under the constructors'
encoding: membership of `x - DAYS_UNTIL_2000` in the canonical span. -/
def spanHasDate (s : MSpan) (x : Int) : Bool :=
  contains_span_date s (x - DAYS_UNTIL_2000)

/-- Smallest `i32` value (`-2^31`), bound of the `try_into` conversions in
`DateSpan::shift_scale`. -/
def I32_MIN : Int := -2147483648

/-- One past the largest `i32` value (`2^31`), bound of the `try_into`
conversions in `DateSpan::shift_scale`. -/
def I32_BOUND : Int := 2147483648

/-- `DateSpan::shift_scale` (lines 182-203): converts the day counts with
`try_into::<i32>().expect("Number too big")` (panic outside the `i32`
range) and calls `datespan_shift_scale`, whose null result panics in
`from_inner`. `delta`/`width` are the day counts of the `TimeDelta`
arguments. -/
def shift_scale (s : MSpan) (delta width : Option Int) : Outcome MSpan :=
  let d := delta.getD 0
  let w := width.getD 0
  if decide (d < I32_MIN) || decide (I32_BOUND ≤ d) ||
      decide (w < I32_MIN) || decide (I32_BOUND ≤ w) then
    .panic
  else
    from_inner (datespan_shift_scale_c s d w delta.isSome width.isSome)

/-- `DateSpan::shift` (lines 129-131): `shift_scale(Some(delta), None)`. -/
def shift (s : MSpan) (d : Int) : Outcome MSpan :=
  shift_scale s (some d) none

/-- `DateSpan::scale` (lines 155-157): `shift_scale(None, Some(width))`. -/
def scale (s : MSpan) (w : Int) : Outcome MSpan :=
  shift_scale s none (some w)

/-- Whether a string contains an interior NUL byte, the one condition under
which `CString::new` fails. -/
def hasNulChar (s : String) : Bool :=
  s.data.any (fun c => decide (c = Char.ofNat 0))

/-- `DateSpan::from_str` (lines 319-324):
`CString::new(string).map_err(|_| ParseError).map(|s| Self::from_inner(datespan_in(s)))`.
An interior NUL yields `Err(ParseError)`; otherwise the parse result is fed
to `from_inner`, whose null-pointer panic escapes the `Result`. -/
def from_str (s : String) : Outcome (Except ParseError MSpan) :=
  if hasNulChar s then
    .ok (.error .parseError)
  else
    match from_inner (datespan_in s) with
    | .ok sp => .ok (.ok sp)
    | .panic => .panic

/-- `impl BitAnd for DateSpan` (lines 433-443): a null intersection becomes
`None`, otherwise `Some`. -/
def bitand (a b : MSpan) : Option MSpan :=
  intersection_span_span a b

end DateSpan

/-! ### Validation of the model against the crate's doc-tests

Each lemma below replays one executable doc-test of `date_span.rs`; they
pin the modelled MEOS semantics (canonical half-open storage, accessors
that do not undo canonicalization, the `+ 1` of discrete scaling) to the
repository's own tests. -/

/-- Doc-test of `lower` (lines 68-72): span `2023-01-01..2023-01-15` has
`lower() == 2023-01-01`. -/
theorem doctest_lower :
    ∃ s, DateSpan.from_range (daysFromCE 2023 1 1) (daysFromCE 2023 1 15) = .ok s ∧
      DateSpan.lower s = daysFromCE 2023 1 1 :=
  ⟨⟨8401, 8415, true, false⟩, by decide⟩

/-- Doc-test of `upper` (lines 93-97): span `2023-01-01..2023-01-15` has
`upper() == 2023-01-15` — the stored exclusive bound, not `2023-01-14`. -/
theorem doctest_upper :
    ∃ s, DateSpan.from_range (daysFromCE 2023 1 1) (daysFromCE 2023 1 15) = .ok s ∧
      DateSpan.upper s = daysFromCE 2023 1 15 :=
  ⟨⟨8401, 8415, true, false⟩, by decide⟩

/-- Doc-test of `from_str` (lines 313-317): `"(2019-09-08, 2019-09-10)"`
parses with `lower() == 2019-09-09` and `upper() == 2019-09-10`. -/
theorem doctest_from_str :
    ∃ s, DateSpan.from_str "(2019-09-08, 2019-09-10)" = .ok (.ok s) ∧
      DateSpan.lower s = daysFromCE 2019 9 9 ∧
      DateSpan.upper s = daysFromCE 2019 9 10 :=
  ⟨⟨7191, 7192, true, false⟩, by decide⟩

/-- Doc-test of `shift` (lines 122-127): shifting `2023-01-01..2023-01-15`
by 5 days equals the span `2023-01-06..2023-01-20`. -/
theorem doctest_shift :
    ∃ s t, DateSpan.from_range (daysFromCE 2023 1 1) (daysFromCE 2023 1 15) = .ok s ∧
      DateSpan.shift s 5 = .ok t ∧
      DateSpan.from_range (daysFromCE 2023 1 6) (daysFromCE 2023 1 20) = .ok t :=
  ⟨⟨8401, 8415, true, false⟩, ⟨8406, 8420, true, false⟩, by decide⟩

/-- Doc-test of `scale` (lines 148-153): scaling `2023-01-01..2023-01-15`
to width 5 days equals the span `2023-01-01..2023-01-07`. -/
theorem doctest_scale :
    ∃ s t, DateSpan.from_range (daysFromCE 2023 1 1) (daysFromCE 2023 1 15) = .ok s ∧
      DateSpan.scale s 5 = .ok t ∧
      DateSpan.from_range (daysFromCE 2023 1 1) (daysFromCE 2023 1 7) = .ok t :=
  ⟨⟨8401, 8415, true, false⟩, ⟨8401, 8407, true, false⟩, by decide⟩

/-- Doc-test of `shift_scale` (lines 175-180): shifting by 5 and scaling to
10 days maps `2023-01-01..2023-01-15` to `2023-01-06..2023-01-17`. -/
theorem doctest_shift_scale :
    ∃ s t, DateSpan.from_range (daysFromCE 2023 1 1) (daysFromCE 2023 1 15) = .ok s ∧
      DateSpan.shift_scale s (some 5) (some 10) = .ok t ∧
      DateSpan.from_range (daysFromCE 2023 1 6) (daysFromCE 2023 1 17) = .ok t :=
  ⟨⟨8401, 8415, true, false⟩, ⟨8406, 8417, true, false⟩, by decide⟩

/-- Doc-test of `bitand` (lines 425-431): the spans `0001-01-01..0001-01-11`
and `0001-01-09..0002-01-11` intersect in `0001-01-09..0001-01-11`. -/
theorem doctest_bitand :
    ∃ a b c, DateSpan.from_range (daysFromCE 1 1 1) (daysFromCE 1 1 11) = .ok a ∧
      DateSpan.from_range (daysFromCE 1 1 9) (daysFromCE 2 1 11) = .ok b ∧
      DateSpan.bitand a b = some c ∧
      DateSpan.from_range (daysFromCE 1 1 9) (daysFromCE 1 1 11) = .ok c :=
  ⟨⟨1 - 730120, 11 - 730120, true, false⟩, ⟨9 - 730120, 376 - 730120, true, false⟩,
    ⟨9 - 730120, 11 - 730120, true, false⟩, by decide⟩

/-! ## Temporal values (`src/temporal/temporal.rs`)

The `Temporal` trait wraps a C-side temporal value. For the claims at hand
(restriction absence, always/ever duality, `time_split_n`), the value is
modelled as its list of instants — pairs of a timestamp and a scalar value
with strictly increasing timestamps (spec §3, `TInstant`/`TSequence` with
discrete footprint). -/

/-- Model of a C-side temporal value: its instants as (timestamp, value)
pairs ordered by timestamp. -/
structure TemporalVal where
  instants : List (Int × Int)
deriving DecidableEq, Repr

namespace TemporalVal

/-- `Temporal::start_timestamp`: timestamp of the first instant (temporal
values are never empty; an empty list is out of the model's domain and
maps to 0). -/
def start_timestamp (v : TemporalVal) : Int :=
  ((v.instants.head?).map Prod.fst).getD 0

/-- `Temporal::end_timestamp`: timestamp of the last instant. -/
def end_timestamp (v : TemporalVal) : Int :=
  ((v.instants.getLast?).map Prod.fst).getD 0

/-- The value the temporal takes at timestamp `t`, when `t` is one of its
instants. -/
def valueAt (v : TemporalVal) (t : Int) : Option Int :=
  (v.instants.find? fun p => decide (p.1 = t)).map Prod.snd

end TemporalVal

/-- Modelled from the spec: the implementations of
`Temporal::from_inner_as_temporal` (the trait method is declared in
`temporal.rs` without a body; every concrete wrapper in the crate follows
the `NonNull::new(inner).expect("No null pointers allowed")` pattern of
`DateSpan::from_inner`): a null temporal result panics. -/
def from_inner_as_temporal (r : Option TemporalVal) : Outcome TemporalVal :=
  match r with
  | some t => .ok t
  | none => .panic

/-- Modelled from the spec: `meos_sys::temporal_at_tstzspan` keeps exactly
the instants whose timestamp lies in the span and returns null (`none`)
when nothing remains (spec §4.3: `at` keeps matching portions; absence is
an explicit absent result). -/
def temporal_at_tstzspan (v : TemporalVal) (s : MSpan) : Option TemporalVal :=
  let kept := v.instants.filter fun p => contains_span_date s p.1
  if kept.isEmpty then none else some ⟨kept⟩

/-- Modelled from the spec: the three-valued C predicate
`meos_sys::always_eq_temporal_temporal`: over the timestamps the two
values share, 1 when the values always agree, 0 otherwise, and -1
(undefined) when the values share no timestamp (spec §4.3: three-valued
logic, `None` when the predicate is undefined). -/
def always_eq_temporal_temporal (a b : TemporalVal) : Int :=
  let c := a.instants.filterMap fun p => (b.valueAt p.1).map fun w => (p.2, w)
  if c.isEmpty then -1
  else if c.all (fun q => decide (q.1 = q.2)) then 1
  else 0

/-- Modelled from the spec: the three-valued C predicate
`meos_sys::ever_ne_temporal_temporal`: over the shared timestamps, 1 when
the values ever disagree, 0 otherwise, -1 (undefined) when no timestamp is
shared. -/
def ever_ne_temporal_temporal (a b : TemporalVal) : Int :=
  let c := a.instants.filterMap fun p => (b.valueAt p.1).map fun w => (p.2, w)
  if c.isEmpty then -1
  else if c.any (fun q => !decide (q.1 = q.2)) then 1
  else 0

/-- Modelled from the spec: splitting into time tiles
(`meos_sys::temporal_time_split`): instants are grouped by the tile index
`(t - start) / duration`; an invalid (non-positive) duration is a MEOS
error, surfacing as a null array and count 0, i.e. no tiles. -/
def temporal_time_split (v : TemporalVal) (duration start : Int) : List TemporalVal :=
  if duration ≤ 0 then []
  else
    let idx := fun (p : Int × Int) => (p.1 - start) / duration
    ((v.instants.map idx).dedup).map fun i =>
      ⟨v.instants.filter fun p => decide (idx p = i)⟩

namespace Temporal

/-- `Temporal::at_tstz_span` (`temporal.rs` lines 536-540): the raw result
of `temporal_at_tstzspan` fed to `from_inner_as_temporal`; the return type
is `Self`, not an `Option`. -/
def at_tstz_span (v : TemporalVal) (s : MSpan) : Outcome TemporalVal :=
  from_inner_as_temporal (temporal_at_tstzspan v s)

/-- Modelled from the spec: `Temporal::at_value` (declared at
`temporal.rs` line 554 with return type `Option<Self::Enum>` and no body
under `src/`): keeps the instants whose value equals the argument and
returns `None` when no portion matches. -/
def at_value (v : TemporalVal) (x : Int) : Option TemporalVal :=
  let kept := v.instants.filter fun p => decide (p.2 = x)
  if kept.isEmpty then none else some ⟨kept⟩

/-- `Temporal::always_equal` (lines 869-876): maps the three-valued C
result through `if result != -1 { Some(result == 1) } else { None }`. -/
def always_equal (a b : TemporalVal) : Option Bool :=
  let result := always_eq_temporal_temporal a b
  if result ≠ -1 then some (decide (result = 1)) else none

/-- `Temporal::ever_not_equal` (lines 926-933): same wrapper around the
`ever_ne` C predicate. -/
def ever_not_equal (a b : TemporalVal) : Option Bool :=
  let result := ever_ne_temporal_temporal a b
  if result ≠ -1 then some (decide (result = 1)) else none

/-- The value of `n as i32` for a `usize` argument `n` (truncation to the
low 32 bits, interpreted in two's complement). -/
def usize_as_i32 (n : Nat) : Int :=
  let m := (n : Int) % 2 ^ 32
  if m < 2 ^ 31 then m else m - 2 ^ 32

/-- `Temporal::time_split` (lines 805-824): delegates to the C tile
splitter. -/
def time_split (v : TemporalVal) (duration start : Int) : List TemporalVal :=
  temporal_time_split v duration start

/-- `Temporal::time_split_n` (lines 833-837):
`let duration = (self.end_timestamp() - start) / n as i32;` followed by
`time_split`. The division is `chrono`'s `TimeDelta / i32`, which panics
when the divisor is zero; there is no guard on `n`. -/
def time_split_n (v : TemporalVal) (n : Nat) : Outcome (List TemporalVal) :=
  let start := v.start_timestamp
  let d := usize_as_i32 n
  if d = 0 then .panic
  else .ok (time_split v ((v.end_timestamp - start) / d) start)

end Temporal

/-! ## Helper lemmas shared by the claim theorems -/

/-- Constructing with both bounds inclusive succeeds for `lo ≤ hi` and
stores the canonical half-open `[lo, hi + 1)`. -/
theorem datespan_make_incl (lo hi : Int) (h : lo ≤ hi) :
    datespan_make lo hi true true = some ⟨lo, hi + 1, true, false⟩ := by
  unfold datespan_make
  rw [if_pos ((lt_or_eq_of_le h).elim Or.inl fun e => Or.inr ⟨e, rfl, rfl⟩)]
  simp

/-- Constructing with an exclusive upper bound succeeds for `lo < hi` and
stores `[lo, hi)` unchanged. -/
theorem datespan_make_excl (lo hi : Int) (h : lo < hi) :
    datespan_make lo hi true false = some ⟨lo, hi, true, false⟩ := by
  unfold datespan_make
  rw [if_pos (Or.inl h)]
  simp

/-- Explicit form of `DateSpan::from(start..end)` for a well-ordered range. -/
theorem from_range_eq (s e : Int) (h : s < e) :
    DateSpan.from_range s e =
      .ok ⟨s - DAYS_UNTIL_2000, e - DAYS_UNTIL_2000, true, false⟩ := by
  unfold DateSpan.from_range DateSpan.from_inner
  rw [datespan_make_excl _ _ (by omega)]

/-- Explicit form of `DateSpan::from(start..=end)` for a well-ordered range. -/
theorem from_range_inclusive_eq (s e : Int) (h : s ≤ e) :
    DateSpan.from_range_inclusive s e =
      .ok ⟨s - DAYS_UNTIL_2000, e - DAYS_UNTIL_2000 + 1, true, false⟩ := by
  unfold DateSpan.from_range_inclusive DateSpan.from_inner
  rw [datespan_make_incl _ _ (by omega)]

/-- Explicit form of `DateSpan::shift` for an in-range delta. -/
theorem shift_eq (s : MSpan) (d : Int)
    (h1 : DateSpan.I32_MIN ≤ d) (h2 : d < DateSpan.I32_BOUND) :
    DateSpan.shift s d = .ok ⟨s.lower + d, s.upper + d, s.lower_inc, s.upper_inc⟩ := by
  simp only [DateSpan.I32_MIN, DateSpan.I32_BOUND] at h1 h2
  unfold DateSpan.shift DateSpan.shift_scale
  simp only [Option.getD_some, Option.getD_none, Option.isSome_some, Option.isSome_none]
  rw [if_neg (by simp [DateSpan.I32_MIN, DateSpan.I32_BOUND]; omega)]
  unfold datespan_shift_scale_c DateSpan.from_inner
  simp

/-- Explicit form of `DateSpan::scale` for a positive in-range width. -/
theorem scale_pos (s : MSpan) (w : Int)
    (h1 : 0 < w) (h2 : w < DateSpan.I32_BOUND) :
    DateSpan.scale s w = .ok ⟨s.lower, s.lower + w + 1, s.lower_inc, s.upper_inc⟩ := by
  simp only [DateSpan.I32_BOUND] at h2
  unfold DateSpan.scale DateSpan.shift_scale
  simp only [Option.getD_some, Option.getD_none, Option.isSome_some, Option.isSome_none]
  rw [if_neg (by simp [DateSpan.I32_MIN, DateSpan.I32_BOUND]; omega)]
  unfold datespan_shift_scale_c DateSpan.from_inner
  rw [if_neg (by simp; omega)]
  simp

/-! ## Concrete spans used by the claims -/

/-- The stored span of `DateSpan::from_str("[2019-09-08, 2019-09-10]")`:
canonical `[2019-09-08, 2019-09-11)` in the MEOS encoding
(`daysFromCE 2019 9 8 - DAYS_UNTIL_2000 = 7190`). -/
def spanSeptLit : MSpan := ⟨7190, 7193, true, false⟩

/-- The stored span of `DateSpan::from(2019-09-08..2019-09-10)`:
canonical `[2019-09-08, 2019-09-10)` in the MEOS encoding. -/
def spanSept : MSpan := ⟨7190, 7192, true, false⟩

/-- The stored span of `DateSpan::from(2023-01-01..2023-01-15)` in the MEOS
encoding (`daysFromCE 2023 1 1 - DAYS_UNTIL_2000 = 8401`). -/
def spanJan : MSpan := ⟨8401, 8415, true, false⟩

/-- The result of scaling `spanJan` to width 5 days. -/
def spanJanScaled : MSpan := ⟨8401, 8407, true, false⟩

/-! ## Claims -/

/-- Claim C1, counterexample: for the span parsed from
`"[2019-09-08, 2019-09-10]"` the accessor `upper()` does not return
2019-09-10. It returns the stored canonical exclusive bound 2019-09-11:
the discrete half-open canonicalization is not undone on output. -/
theorem c1_upper_counterexample :
    DateSpan.from_str "[2019-09-08, 2019-09-10]" = .ok (.ok spanSeptLit) ∧
    ¬ DateSpan.upper spanSeptLit = daysFromCE 2019 9 10 := by
  decide

/-- Claim C1, amended: for the span parsed from
`"[2019-09-08, 2019-09-10]"`, `lower()` returns 2019-09-08 and `upper()`
returns 2019-09-11; in general `lower()`/`upper()` return the stored
canonical (half-open) bounds translated back to the external date
encoding, so an inclusive construction `lo..=hi` reads back as `lower = lo`
and `upper = hi + 1`, and an exclusive construction `lo..hi` as
`lower = lo` and `upper = hi`. -/
theorem c1_accessors_amended :
    (DateSpan.from_str "[2019-09-08, 2019-09-10]" = .ok (.ok spanSeptLit) ∧
      DateSpan.lower spanSeptLit = daysFromCE 2019 9 8 ∧
      DateSpan.upper spanSeptLit = daysFromCE 2019 9 11) ∧
    (∀ lo hi : Int, lo ≤ hi → ∃ s, DateSpan.from_range_inclusive lo hi = .ok s ∧
      DateSpan.lower s = lo ∧ DateSpan.upper s = hi + 1) ∧
    (∀ lo hi : Int, lo < hi → ∃ s, DateSpan.from_range lo hi = .ok s ∧
      DateSpan.lower s = lo ∧ DateSpan.upper s = hi) := by
  refine ⟨by decide, fun lo hi h => ⟨_, from_range_inclusive_eq lo hi h, ?_, ?_⟩,
    fun lo hi h => ⟨_, from_range_eq lo hi h, ?_, ?_⟩⟩ <;>
    (simp [DateSpan.lower, DateSpan.upper, datespan_lower, datespan_upper]; try ring)

/-- Claim C1, witness for the amended theorem: concrete instances of both
quantified parts at `lo = 0`, `hi = 2`. -/
theorem c1_accessors_amended_witness :
    (∃ s, DateSpan.from_range_inclusive 0 2 = .ok s ∧
      DateSpan.lower s = 0 ∧ DateSpan.upper s = 3) ∧
    (∃ s, DateSpan.from_range 0 2 = .ok s ∧
      DateSpan.lower s = 0 ∧ DateSpan.upper s = 2) :=
  ⟨c1_accessors_amended.2.1 0 2 (by decide), c1_accessors_amended.2.2 0 2 (by decide)⟩

/-- Claim C2: on malformed text without an interior NUL byte,
`DateSpan::from_str` does not return `Err(ParseError)` — `datespan_in`
yields a null pointer and `from_inner` panics
(`expect("No null pointers allowed")`). The documented `ParseError` is
produced only when `CString::new` fails, i.e. for strings with an interior
NUL byte. -/
theorem c2_from_str_panics :
    DateSpan.from_str "abc" = .panic ∧
    DateSpan.from_str "\x00" = .ok (.error .parseError) := by
  decide

/-- Claim C3: `DateSpan::contains` passes `num_days_from_ce` directly to
the C membership test, while every constructor of the same file stores
bounds shifted by `DAYS_UNTIL_2000`; consequently the span built from
`2019-09-08..2019-09-10` reports `contains(2019-09-08) = false`, although
under the constructors' encoding the date is a member. -/
theorem c3_contains_encoding_bug :
    DateSpan.from_range (daysFromCE 2019 9 8) (daysFromCE 2019 9 10) = .ok spanSept ∧
    DateSpan.contains spanSept (daysFromCE 2019 9 8) = false ∧
    DateSpan.spanHasDate spanSept (daysFromCE 2019 9 8) = true := by
  decide

/-- Claim C5, counterexample: scaling the span `2023-01-01..2023-01-15` to
width `w = 5` days yields `upper() - lower() = 6`, not `w`: the discrete
scale sets the canonical exclusive upper bound to `lower + w + 1`. -/
theorem c5_scale_counterexample :
    DateSpan.from_range (daysFromCE 2023 1 1) (daysFromCE 2023 1 15) = .ok spanJan ∧
    DateSpan.scale spanJan 5 = .ok spanJanScaled ∧
    ¬ DateSpan.upper spanJanScaled - DateSpan.lower spanJanScaled = 5 := by
  decide

/-- Claim C5, amended: for `0 < w` (within the `i32` range) `scale`
preserves the position of the lower bound and the resulting span satisfies
`upper - lower = w + 1` (the canonical half-open span covers `w + 1` days,
i.e. its external inclusive width is `w`); scaling by zero or negative
width fails — the MEOS call errors and the wrapper panics on the null
result. -/
theorem c5_scale_amended :
    (∀ (s : MSpan) (w : Int), 0 < w → w < DateSpan.I32_BOUND →
      ∃ r, DateSpan.scale s w = .ok r ∧
        DateSpan.lower r = DateSpan.lower s ∧
        DateSpan.upper r - DateSpan.lower r = w + 1) ∧
    (∀ (s : MSpan) (w : Int), DateSpan.I32_MIN ≤ w → w ≤ 0 →
      DateSpan.scale s w = .panic) := by
  constructor
  · intro s w h1 h2
    refine ⟨_, scale_pos s w h1 h2, ?_, ?_⟩ <;>
      (simp [DateSpan.lower, DateSpan.upper, datespan_lower, datespan_upper]; try ring)
  · intro s w h1 h2
    simp only [DateSpan.I32_MIN] at h1
    unfold DateSpan.scale DateSpan.shift_scale
    simp only [Option.getD_some, Option.getD_none, Option.isSome_some, Option.isSome_none]
    rw [if_neg (by simp [DateSpan.I32_MIN, DateSpan.I32_BOUND]; omega)]
    unfold datespan_shift_scale_c DateSpan.from_inner
    rw [if_pos (by simp; omega)]

/-- Claim C5, witness for the amended theorem: both parts at the concrete
span `spanJan`, with `w = 5` and `w = 0`. -/
theorem c5_scale_amended_witness :
    (∃ r, DateSpan.scale spanJan 5 = .ok r ∧
      DateSpan.lower r = DateSpan.lower spanJan ∧
      DateSpan.upper r - DateSpan.lower r = 6) ∧
    DateSpan.scale spanJan 0 = .panic :=
  ⟨c5_scale_amended.1 spanJan 5 (by decide) (by decide),
    c5_scale_amended.2 spanJan 0 (by decide) (by decide)⟩

/-- Claim C4, counterexample: restricting the temporal value with single
instant `(0, 7)` to the time span `[10, 20)` matches nothing; instead of an
absent optional result, `at_tstz_span` — whose return type is `Self`, not
an `Option` — panics on the null pointer produced by the empty
restriction. -/
theorem c4_at_counterexample :
    Temporal.at_tstz_span ⟨[(0, 7)]⟩ ⟨10, 20, true, false⟩ = .panic := by
  decide

/-- Claim C4, amended: `at_value` (whose return type is optional) returns
`None` when no instant carries the requested value; but `at_tstz_span`
returns `Self`, so when no instant falls in the span the null result
panics in `from_inner_as_temporal` instead of signalling absence. -/
theorem c4_at_absence_amended :
    (∀ (v : TemporalVal) (x : Int),
      (v.instants.all fun p => !decide (p.2 = x)) = true →
      Temporal.at_value v x = none) ∧
    (∀ (v : TemporalVal) (s : MSpan),
      (v.instants.all fun p => !contains_span_date s p.1) = true →
      Temporal.at_tstz_span v s = .panic) := by
  constructor
  · intro v x h
    unfold Temporal.at_value
    rw [List.filter_eq_nil_iff.mpr (by simpa using List.all_eq_true.mp h)]
    rfl
  · intro v s h
    unfold Temporal.at_tstz_span temporal_at_tstzspan from_inner_as_temporal
    rw [List.filter_eq_nil_iff.mpr (by simpa using List.all_eq_true.mp h)]
    rfl

/-- Claim C4, witness for the amended theorem: both parts at the concrete
one-instant value `(0, 7)`. -/
theorem c4_at_absence_amended_witness :
    Temporal.at_value ⟨[(0, 7)]⟩ 9 = none ∧
    Temporal.at_tstz_span ⟨[(0, 7)]⟩ ⟨10, 20, true, false⟩ = .panic :=
  ⟨c4_at_absence_amended.1 ⟨[(0, 7)]⟩ 9 (by decide),
    c4_at_absence_amended.2 ⟨[(0, 7)]⟩ ⟨10, 20, true, false⟩ (by decide)⟩

/-- Claim C6: for canonical (half-open, well-formed) date spans, `a & b`
is the span of the greater lower bound and the smaller upper bound when
the spans overlap and `None` otherwise; concretely,
`[1,11) & [9,111) = [9,11)` and `[1,11) & [20,30) = None`. -/
theorem c6_intersection :
    (∀ a b : MSpan,
      a.lower_inc = true → a.upper_inc = false → a.lower < a.upper →
      b.lower_inc = true → b.upper_inc = false → b.lower < b.upper →
      DateSpan.bitand a b =
        if max a.lower b.lower < min a.upper b.upper then
          some ⟨max a.lower b.lower, min a.upper b.upper, true, false⟩
        else none) ∧
    DateSpan.bitand ⟨1, 11, true, false⟩ ⟨9, 111, true, false⟩ =
      some ⟨9, 11, true, false⟩ ∧
    DateSpan.bitand ⟨1, 11, true, false⟩ ⟨20, 30, true, false⟩ = none := by
  refine ⟨?_, by decide, by decide⟩
  rintro ⟨al, au, ali, aui⟩ ⟨bl, bu, bli, bui⟩ rfl rfl ha rfl rfl hb
  dsimp only at ha hb ⊢
  unfold DateSpan.bitand intersection_span_span overlaps_span_span lower_bound_le_upper_bound
  dsimp only
  simp only [Bool.and_true, Bool.and_false, Bool.or_false]
  by_cases h : max al bl < min au bu
  · rw [if_pos (by simp only [Bool.and_eq_true, decide_eq_true_eq]; omega), if_pos h]
    simp
  · rw [if_neg (by simp only [Bool.and_eq_true, decide_eq_true_eq, not_and]; omega), if_neg h]

/-- Claim C6, witness: the general part instantiated at the two concrete
overlapping spans of the claim. -/
theorem c6_intersection_witness :
    DateSpan.bitand ⟨1, 11, true, false⟩ ⟨9, 111, true, false⟩ =
      if max (1 : Int) 9 < min (11 : Int) 111 then
        some ⟨max (1 : Int) 9, min (11 : Int) 111, true, false⟩
      else none :=
  c6_intersection.1 ⟨1, 11, true, false⟩ ⟨9, 111, true, false⟩
    rfl rfl (by decide) rfl rfl (by decide)

/-- Claim C7: for every span and every delta whose day count and its
negation are representable in the `i32` passed to MEOS, shifting by the
delta and then by its negation returns the original span. -/
theorem c7_shift_inverse (s : MSpan) (d : Int)
    (h1 : DateSpan.I32_MIN < d) (h2 : d < DateSpan.I32_BOUND) :
    ∃ s1, DateSpan.shift s d = .ok s1 ∧ DateSpan.shift s1 (-d) = .ok s := by
  simp only [DateSpan.I32_MIN, DateSpan.I32_BOUND] at h1 h2
  obtain ⟨l, u, li, ui⟩ := s
  refine ⟨⟨l + d, u + d, li, ui⟩,
    shift_eq _ _ (by simp [DateSpan.I32_MIN]; omega) (by simp [DateSpan.I32_BOUND]; omega), ?_⟩
  rw [shift_eq _ _ (by simp [DateSpan.I32_MIN]; omega) (by simp [DateSpan.I32_BOUND]; omega)]
  simp

/-- Claim C7, witness: the inverse-shift law at the concrete span
`[1, 11)` with `d = 3`. -/
theorem c7_shift_inverse_witness :
    ∃ s1, DateSpan.shift ⟨1, 11, true, false⟩ 3 = .ok s1 ∧
      DateSpan.shift s1 (-3) = .ok ⟨1, 11, true, false⟩ :=
  c7_shift_inverse ⟨1, 11, true, false⟩ 3 (by decide) (by decide)

/-- Claim C8: whenever the always/ever predicates are determinate,
`always_equal = Some(true)` holds exactly when `ever_not_equal =
Some(false)`; and an undefined C-level predicate (result -1) surfaces as
`None`, never as `Some(false)`. -/
theorem c8_always_ever_duality :
    (∀ a b : TemporalVal, (Temporal.always_equal a b).isSome = true →
      (Temporal.always_equal a b = some true ↔
        Temporal.ever_not_equal a b = some false)) ∧
    (∀ a b : TemporalVal, always_eq_temporal_temporal a b = -1 →
      Temporal.always_equal a b = none) ∧
    (∀ a b : TemporalVal, ever_ne_temporal_temporal a b = -1 →
      Temporal.ever_not_equal a b = none) := by
  refine ⟨?_, ?_, ?_⟩
  · intro a b hsome
    unfold Temporal.always_equal Temporal.ever_not_equal at *
    unfold always_eq_temporal_temporal ever_ne_temporal_temporal at *
    by_cases he :
        (a.instants.filterMap fun p => (b.valueAt p.1).map fun w => (p.2, w)).isEmpty
    · simp [he] at hsome
    · simp only [he, if_false]
      by_cases hall :
          (a.instants.filterMap fun p => (b.valueAt p.1).map fun w => (p.2, w)).all
            (fun q => decide (q.1 = q.2)) = true
      · have hany :
            (a.instants.filterMap fun p => (b.valueAt p.1).map fun w => (p.2, w)).any
              (fun q => !decide (q.1 = q.2)) = false := by
          rcases List.all_eq_true.mp hall with _
          simp only [List.any_eq_false]
          intro q hq
          simpa using List.all_eq_true.mp hall q hq
        simp [hall, hany]
      · have hany :
            (a.instants.filterMap fun p => (b.valueAt p.1).map fun w => (p.2, w)).any
              (fun q => !decide (q.1 = q.2)) = true := by
          rcases List.all_eq_false.mp (Bool.eq_false_iff.mpr hall) with ⟨q, hq, hnq⟩
          exact List.any_eq_true.mpr ⟨q, hq, by simpa using hnq⟩
        simp [hall, hany]
  · intro a b h
    unfold Temporal.always_equal
    rw [if_neg (by simp [h])]
  · intro a b h
    unfold Temporal.ever_not_equal
    rw [if_neg (by simp [h])]

/-- Claim C8, witness: duality at a concrete pair of identical one-instant
values (`always_equal = Some(true)`, `ever_not_equal = Some(false)`), and
the `None` cases at a pair sharing no timestamp. -/
theorem c8_always_ever_duality_witness :
    (Temporal.always_equal ⟨[(0, 1)]⟩ ⟨[(0, 1)]⟩ = some true ↔
      Temporal.ever_not_equal ⟨[(0, 1)]⟩ ⟨[(0, 1)]⟩ = some false) ∧
    Temporal.always_equal ⟨[(0, 1)]⟩ ⟨[(5, 1)]⟩ = none ∧
    Temporal.ever_not_equal ⟨[(0, 1)]⟩ ⟨[(5, 1)]⟩ = none :=
  ⟨c8_always_ever_duality.1 ⟨[(0, 1)]⟩ ⟨[(0, 1)]⟩ (by decide),
    c8_always_ever_duality.2.1 ⟨[(0, 1)]⟩ ⟨[(5, 1)]⟩ (by decide),
    c8_always_ever_duality.2.2 ⟨[(0, 1)]⟩ ⟨[(5, 1)]⟩ (by decide)⟩

/-- Claim C9: `time_split_n` divides the total duration by `n as i32`
without a guard, so every call with `n = 0` panics on the division by
zero, and any call that does not panic had `n ≥ 1`. -/
theorem c9_time_split_n_guard :
    (∀ v : TemporalVal, Temporal.time_split_n v 0 = .panic) ∧
    (∀ (v : TemporalVal) (n : Nat), Temporal.time_split_n v n ≠ .panic → 1 ≤ n) := by
  have h0 : ∀ v : TemporalVal, Temporal.time_split_n v 0 = .panic := fun v => rfl
  refine ⟨h0, fun v n h => ?_⟩
  rcases n with _ | n
  · exact absurd (h0 v) h
  · omega

/-- Claim C9, witness: the no-panic hypothesis discharged at `n = 1` on a
concrete one-instant value. -/
theorem c9_time_split_n_guard_witness :
    Temporal.time_split_n ⟨[(0, 1)]⟩ 1 ≠ .panic ∧ 1 ≤ 1 :=
  ⟨by decide, c9_time_split_n_guard.2 ⟨[(0, 1)]⟩ 1 (by decide)⟩

/-- Claim C10, counterexample: for `start = end` the range constructor
produces no span at all — `datespan_make` rejects the empty range and the
wrapper panics — so the claim's universal quantification over all date
pairs fails. -/
theorem c10_empty_range_counterexample :
    DateSpan.from_range 5 5 = .panic := by
  decide

/-- Claim C10, amended: for `start < end`, the span built from
`start..end` admits exactly the dates `start ≤ x < end` (inclusive lower,
exclusive upper); for `start ≤ end`, the span built from `start..=end`
admits exactly `start ≤ x ≤ end` (both bounds inclusive); outside these
preconditions the constructors panic. Membership is taken in the
constructors' encoding; storage is canonical half-open in both cases. -/
theorem c10_range_constructors_amended :
    (∀ start stop : Int, start < stop →
      ∃ sp, DateSpan.from_range start stop = .ok sp ∧
        ∀ x : Int, DateSpan.spanHasDate sp x = decide (start ≤ x ∧ x < stop)) ∧
    (∀ start stop : Int, start ≤ stop →
      ∃ sp, DateSpan.from_range_inclusive start stop = .ok sp ∧
        ∀ x : Int, DateSpan.spanHasDate sp x = decide (start ≤ x ∧ x ≤ stop)) := by
  constructor
  · intro start stop h
    refine ⟨_, from_range_eq start stop h, fun x => ?_⟩
    simp only [DateSpan.spanHasDate, contains_span_date]
    rw [Bool.eq_iff_iff]
    simp only [Bool.and_eq_true, decide_eq_true_eq, if_true, Bool.false_eq_true, if_false]
    omega
  · intro start stop h
    refine ⟨_, from_range_inclusive_eq start stop h, fun x => ?_⟩
    simp only [DateSpan.spanHasDate, contains_span_date]
    rw [Bool.eq_iff_iff]
    simp only [Bool.and_eq_true, decide_eq_true_eq, if_true, Bool.false_eq_true, if_false]
    omega

/-- Claim C10, witness for the amended theorem: both constructors at the
concrete range from day 0 to day 2. -/
theorem c10_range_constructors_amended_witness :
    (∃ sp, DateSpan.from_range 0 2 = .ok sp ∧
      ∀ x : Int, DateSpan.spanHasDate sp x = decide (0 ≤ x ∧ x < 2)) ∧
    (∃ sp, DateSpan.from_range_inclusive 0 2 = .ok sp ∧
      ∀ x : Int, DateSpan.spanHasDate sp x = decide (0 ≤ x ∧ x ≤ 2)) :=
  ⟨c10_range_constructors_amended.1 0 2 (by decide),
    c10_range_constructors_amended.2 0 2 (by decide)⟩

end MeosRs
